import Mathlib

/-!
# Attendance Verification & Recording Engine — shallow embedding

A shallow embedding of the attendance subsystem of the HR-Management-System
repository (server controllers `attendanceController.js`,
`attendanceMethodsController.js`, `attendanceReportsController.js`), together
with proofs settling the frozen claims about its specification.

Modelling conventions:
* JS numbers (coordinates, face-descriptor components, fractional hours) are
  rationals; instants (`Date` / Firestore `Timestamp`) are integers counting
  milliseconds since the epoch.
* The Firestore store is a list of documents; the availability of the
  composite `(employeeId, entryTime)` index is a boolean field of the store —
  when it is `false`, the composite range query throws the "index required"
  error that the controllers catch by message inspection.
* Fire-and-forget e-mail notifications never affect the store or the HTTP
  response, so they are not represented.
* `Math.sqrt` appears in the source only inside monotone comparisons
  (`sqrt s * 111000 > radius`, `sqrt s >= 0.6`); those comparisons are
  embedded on the squares, which is equivalent since both sides are
  nonnegative.  The facial-confidence figure `100 - distance * 100` is
  embedded as a function of the Euclidean distance itself.
-/

namespace HRMS

/-- A coordinate pair, `location.coordinates = [longitude, latitude]`. -/
structure Coord where
  lng : ℚ
  lat : ℚ
deriving DecidableEq, Repr

/-- The `method` field of an attendance document: one of
`"manual" | "qr" | "facial"`. -/
inductive Method where
  | manual
  | qr
  | facial
deriving DecidableEq, Repr

/-- A document of the `attendance` collection.  `entryTime` is always present
(it is set at creation and never removed); `exitTime` and `exitLocation` are
absent until `recordExit` succeeds.  `id` is the Firestore document id. -/
structure AttendanceRecord where
  id : Nat
  employeeId : String
  entryTime : ℤ
  exitTime : Option ℤ
  location : Coord
  exitLocation : Option Coord
  method : Method
deriving DecidableEq, Repr

/-- A document of the `employees` collection (the fields this subsystem
reads). `faceDescriptor` is stored out-of-band by the profile page. -/
structure Employee where
  id : String
  email : String
  role : String
  faceDescriptor : Option (List ℚ)
deriving DecidableEq, Repr

/-- The Firestore state visible to the attendance engine.
`attendanceCompositeIndex` records whether the composite
`(employeeId, entryTime)` index exists; when `false`, range queries
combining both fields fail with an index error. -/
structure Store where
  employees : List Employee
  attendance : List AttendanceRecord
  nextId : Nat
  attendanceCompositeIndex : Bool
deriving DecidableEq, Repr

/-- `db().collection(EMPLOYEES).doc(eid).get()` — document lookup by id. -/
def findEmployee (st : Store) (eid : String) : Option Employee :=
  st.employees.find? (fun e => e.id == eid)

/-- `db().collection(ATTENDANCE).where("employeeId","==",eid).get()` —
the single-predicate query, always executable (no composite index needed). -/
def attendanceOf (st : Store) (eid : String) : List AttendanceRecord :=
  st.attendance.filter (fun r => r.employeeId == eid)

/-- The composite query
`where("employeeId","==",eid).where("entryTime",">=",s).where("entryTime","<=",e)`.
It throws an index error when the composite index is missing. -/
def queryAttendanceRange (st : Store) (eid : String) (s e : ℤ) :
    Except Unit (List AttendanceRecord) :=
  if st.attendanceCompositeIndex then
    Except.ok ((attendanceOf st eid).filter
      (fun r => s ≤ r.entryTime && r.entryTime ≤ e))
  else
    Except.error ()

/-- `openAttendanceSnapshot.docs.some(doc => !doc.data().exitTime)` from
`recordAttendance`: does the employee have a record with no exit time? -/
def hasOpenAttendance (st : Store) (eid : String) : Bool :=
  (attendanceOf st eid).any (fun r => r.exitTime.isNone)

/-- Allowed office location: defaults `ALLOWED_LNG = 8.8362755`,
`ALLOWED_LAT = 33.1245286`. -/
def allowedLocation : Coord := ⟨88362755 / 10000000, 331245286 / 10000000⟩

/-- Allowed radius in metres, default `500`. -/
def allowedRadius : ℚ := 500

/-- The geofence test
`sqrt((lng-allowedLng)^2 + (lat-allowedLat)^2) * 111000 > allowedRadius`,
stated on squares: both sides are nonnegative, so comparing squares is
equivalent to comparing the square roots. -/
def outsideAllowedArea (loc : Coord) : Bool :=
  decide (((loc.lng - allowedLocation.lng) ^ 2 +
           (loc.lat - allowedLocation.lat) ^ 2) * 111000 ^ 2
          > allowedRadius ^ 2)

/-- `new Date(t).getHours()` — hour of day of an epoch-millisecond instant
(time zone fixed to UTC in the model; no claim depends on the zone). -/
def hourOf (t : ℤ) : ℤ := t / 3600000 % 24

/-- `isValidFirebaseId`: a non-empty string. -/
def isValidFirebaseId (id : String) : Bool := id.length > 0

/-- The error outcomes the attendance controllers can respond with. -/
inductive AttError where
  /-- a 400 from the express-validator middleware or an in-handler format
  check (e.g. invalid `employeeId` inside a QR payload) -/
  | validationError
  /-- 404 "Employee not found" -/
  | notFound
  /-- 403 access denied -/
  | forbidden
  /-- 400 "You already have an open attendance entry…" -/
  | duplicateOpenSession
  /-- 400 "Location outside allowed area" -/
  | outOfBounds
  /-- 400 "Invalid QR data format" -/
  | invalidPayload
  /-- 401 "Invalid or expired QR code" -/
  | expiredCredential
  /-- 400 "Face not recognized (confidence: …)"; carries the squared
  Euclidean distance between the templates (`none` when the vectors have
  different lengths, i.e. the JS distance is `Infinity`) -/
  | notRecognized (distSq : Option ℚ)
  /-- 400 "Face not registered…" -/
  | notEnrolled
  /-- 400 "No entry attendance found…" -/
  | noOpenSession
  /-- 400 "Exit time must be after entry time" -/
  | invalidChronology
  /-- 500 "Database index required. Please create the index and try again." -/
  | indexRequired
deriving DecidableEq, Repr

/-- The outcome of a store-mutating handler: the HTTP-level result paired
with the store after the call. -/
abbrev AttResult := Except AttError AttendanceRecord × Store

/-- The body of a check-in request (`employeeId`, `entryTime`,
`location.coordinates`, `method`), after express-validator has accepted it. -/
structure EntryRequest where
  employeeId : String
  entryTime : ℤ
  location : Coord
  method : Method
deriving DecidableEq, Repr

/-- `recordAttendance` (`attendanceController.js`): manual check-in.
`userId`/`userRole` are `req.user.id`/`req.user.role` from the auth
middleware.  `openCheckOk` models whether the open-attendance query itself
succeeds: the source wraps that check in `try/catch` and, if the query
throws, logs and proceeds without blocking the entry.
Order of checks, as in the source: employee lookup, authorization,
duplicate-open-session, geofence, then creation (the late-arrival branch
only sends a notification and never fails the operation). -/
def recordAttendance (st : Store) (userId userRole : String)
    (req : EntryRequest) (openCheckOk : Bool) : AttResult :=
  match findEmployee st req.employeeId with
  | none => (Except.error AttError.notFound, st)
  | some _ =>
    if userId ≠ req.employeeId ∧ userRole ≠ "admin" then
      (Except.error AttError.forbidden, st)
    else if openCheckOk && hasOpenAttendance st req.employeeId then
      (Except.error AttError.duplicateOpenSession, st)
    else if outsideAllowedArea req.location then
      (Except.error AttError.outOfBounds, st)
    else
      let newRec : AttendanceRecord :=
        ⟨st.nextId, req.employeeId, req.entryTime, none, req.location,
          none, req.method⟩
      (Except.ok newRec,
        { st with attendance := st.attendance ++ [newRec],
                  nextId := st.nextId + 1 })

/-- The JSON object inside a QR code: `{employeeId, timestamp, expiresAt}`
(`generateQrCode` writes all three fields). -/
structure QrPayload where
  employeeId : String
  timestamp : ℤ
  expiresAt : ℤ
deriving DecidableEq, Repr

/-- The payload written by `generateQrCode` at instant `now`:
`{employeeId, timestamp: Date.now(), expiresAt: Date.now() + 12h}`. -/
def generateQrPayload (employeeId : String) (now : ℤ) : QrPayload :=
  ⟨employeeId, now, now + 12 * 60 * 60 * 1000⟩

/-- `scanQrCode` (`attendanceMethodsController.js`): QR check-in.
`qrData` is the result of `JSON.parse(qrData)` — `none` models an
undecodable payload.  Order of checks, as in the source: decode,
`isValidFirebaseId(employeeId)`, authorization, employee lookup, 5-minute
freshness of `timestamp`, geofence, then creation with `method = "qr"`.
The decoded `expiresAt` field is never read by the handler. -/
def scanQrCode (st : Store) (userId userRole : String)
    (qrData : Option QrPayload) (entryTime : ℤ) (location : Coord)
    (now : ℤ) : AttResult :=
  match qrData with
  | none => (Except.error AttError.invalidPayload, st)
  | some p =>
    if ¬ isValidFirebaseId p.employeeId then
      (Except.error AttError.validationError, st)
    else if userId ≠ p.employeeId ∧ userRole ≠ "admin" then
      (Except.error AttError.forbidden, st)
    else
      match findEmployee st p.employeeId with
      | none => (Except.error AttError.notFound, st)
      | some _ =>
        if now - p.timestamp > 5 * 60 * 1000 then
          (Except.error AttError.expiredCredential, st)
        else if outsideAllowedArea location then
          (Except.error AttError.outOfBounds, st)
        else
          let newRec : AttendanceRecord :=
            ⟨st.nextId, p.employeeId, entryTime, none, location,
              none, Method.qr⟩
          (Except.ok newRec,
            { st with attendance := st.attendance ++ [newRec],
                      nextId := st.nextId + 1 })

/-- `calculateDistance` without the final `Math.sqrt`: the reduce
`Σ (a_i - b_i)^2` over the zipped vectors.  `none` models the `Infinity`
returned when the lengths differ (the null-argument guard of the source
cannot fire at the call site: `faceTemplate` is validated non-null and
`employee.faceDescriptor` is checked truthy first). -/
def calculateDistanceSq (d1 d2 : List ℚ) : Option ℚ :=
  if d1.length = d2.length then
    some ((List.zip d1 d2).foldl (fun sum p => sum + (p.1 - p.2) ^ 2) 0)
  else
    none

/-- The recognition test `calculateDistance(...) >= 0.6`, expressed on the
squared distance: `sqrt s >= 0.6 ↔ s >= 0.36` for `s ≥ 0`, and an infinite
distance (`none`) always fails. -/
def faceRejected (distSq : Option ℚ) : Bool :=
  match distSq with
  | none => true
  | some s => decide (s ≥ 9 / 25)

/-- The confidence figure in the rejection message,
`(100 - distance * 100).toFixed(1)`, as a function of the Euclidean
distance `d` (the source computes `d` as the square root of the summed
squared differences). -/
def confidence (d : ℚ) : ℚ := 100 - d * 100

/-- `facialAttendance` (`attendanceMethodsController.js`): facial check-in.
The express-validator middleware rejects templates that are not 128-length
float arrays.  Order of checks, as in the source: validation, employee
lookup, descriptor enrolment, recognition threshold, authorization,
geofence, then creation with `method = "facial"`. -/
def facialAttendance (st : Store) (userId userRole : String)
    (employeeId : String) (faceTemplate : List ℚ) (entryTime : ℤ)
    (location : Coord) : AttResult :=
  if faceTemplate.length ≠ 128 then
    (Except.error AttError.validationError, st)
  else
    match findEmployee st employeeId with
    | none => (Except.error AttError.notFound, st)
    | some emp =>
      match emp.faceDescriptor with
      | none => (Except.error AttError.notEnrolled, st)
      | some descriptor =>
        let distSq := calculateDistanceSq faceTemplate descriptor
        if faceRejected distSq then
          (Except.error (AttError.notRecognized distSq), st)
        else if userId ≠ employeeId ∧ userRole ≠ "admin" then
          (Except.error AttError.forbidden, st)
        else if outsideAllowedArea location then
          (Except.error AttError.outOfBounds, st)
        else
          let newRec : AttendanceRecord :=
            ⟨st.nextId, employeeId, entryTime, none, location,
              none, Method.facial⟩
          (Except.ok newRec,
            { st with attendance := st.attendance ++ [newRec],
                      nextId := st.nextId + 1 })

/-- Stable insertion into a list sorted by descending `entryTime`: the
inserted record goes after every already-placed record whose `entryTime`
is at least its own. -/
def insertByEntryDesc (r : AttendanceRecord) :
    List AttendanceRecord → List AttendanceRecord
  | [] => [r]
  | x :: xs =>
    if r.entryTime ≤ x.entryTime then x :: insertByEntryDesc r xs
    else r :: x :: xs

/-- The in-memory `docs.sort((a, b) => bTime - aTime)` of `recordExit`:
the stable sort by descending `entryTime` (JS array sort is stable),
computed as a stable insertion sort. -/
def sortByEntryDesc (l : List AttendanceRecord) : List AttendanceRecord :=
  l.foldl (fun acc r => insertByEntryDesc r acc) []

/-- The body of a check-out request (`employeeId`, `exitTime`,
`location.coordinates`). -/
structure ExitRequest where
  employeeId : String
  exitTime : ℤ
  location : Coord
deriving DecidableEq, Repr

/-- The snapshot `recordExit` iterates over: the composite
`employeeId + entryTime ∈ [now - 30d, now + 30d]` query, falling back to
the plain by-employee query when the index is missing (the source matches
the error message against the word index; in the model the composite query
fails only for that reason). -/
def exitQuerySnapshot (st : Store) (eid : String) (now : ℤ) :
    List AttendanceRecord :=
  match queryAttendanceRange st eid
      (now - 30 * 24 * 60 * 60 * 1000) (now + 30 * 24 * 60 * 60 * 1000) with
  | Except.ok docs => docs
  | Except.error _ => attendanceOf st eid

/-- The record `recordExit` updates: the first record without `exitTime`
in the snapshot sorted by descending `entryTime`. -/
def openRecordFor (st : Store) (eid : String) (now : ℤ) :
    Option AttendanceRecord :=
  (sortByEntryDesc (exitQuerySnapshot st eid now)).find?
    (fun r => r.exitTime.isNone)

/-- `recordExit` (`attendanceController.js`): check-out.  Order, as in the
source: employee lookup; locate the most recent open record in a ±30-day
window (with index fallback); `NoOpenSession` if none; require
`exitTime > entryTime` else `InvalidChronology`; then update the located
document with `exitTime` and `exitLocation`. -/
def recordExit (st : Store) (req : ExitRequest) (now : ℤ) : AttResult :=
  match findEmployee st req.employeeId with
  | none => (Except.error AttError.notFound, st)
  | some _ =>
    match openRecordFor st req.employeeId now with
    | none => (Except.error AttError.noOpenSession, st)
    | some existing =>
      if req.exitTime ≤ existing.entryTime then
        (Except.error AttError.invalidChronology, st)
      else
        let updated : AttendanceRecord :=
          { existing with exitTime := some req.exitTime,
                          exitLocation := some req.location }
        (Except.ok updated,
          { st with attendance :=
              st.attendance.map (fun r =>
                if r.id = existing.id then updated else r) })

/-- The report object built by the report handlers. -/
structure Report where
  employeeId : String
  startDate : Option ℤ
  endDate : Option ℤ
  totalDays : ℕ
  totalHours : ℚ
  lateDays : ℕ
deriving DecidableEq, Repr

/-- The `attendanceRecords.forEach` body shared by `getPresenceReport` and
`getAllPresenceReports`, folded over `(totalDays, totalHours, lateDays)`:
the guard `if (record.entryTime)` is always true (a stored record always
carries an entry `Timestamp`, and `Timestamp` objects are truthy);
`totalDays` gains 1; `lateDays` gains 1 when the entry hour is ≥ 9; and
`totalHours` gains `(exitTime - entryTime) / (1000*60*60)` only when
`exitTime` is present. -/
def accumRecord (acc : ℕ × ℚ × ℕ) (r : AttendanceRecord) : ℕ × ℚ × ℕ :=
  let late := if hourOf r.entryTime ≥ 9 then acc.2.2 + 1 else acc.2.2
  match r.exitTime with
  | some ex =>
      (acc.1 + 1, acc.2.1 + ((ex - r.entryTime : ℤ) : ℚ) / (1000 * 60 * 60),
        late)
  | none => (acc.1 + 1, acc.2.1, late)

/-- `getPresenceReport` (`attendanceReportsController.js`).  The resolution
of `period`/`startDate`/`endDate` into a window is passed in as `window`
(for `weekly`, `[startOfDay startDate, + 7 days]`; for `daily` with no
`endDate` the window is `none` and the query is unfiltered); no claim under
verification depends on that calendar arithmetic.  With a window, the
composite query is attempted, and when it throws the index error the
handler returns the 500 "Database index required" response; without a
window the plain by-employee query is used.  The matched records are folded
with `accumRecord`. -/
def getPresenceReport (st : Store) (employeeId : String)
    (window : Option (ℤ × ℤ)) : Except AttError Report :=
  match findEmployee st employeeId with
  | none => Except.error AttError.notFound
  | some _ =>
    match window with
    | some (s, e) =>
      match queryAttendanceRange st employeeId s e with
      | Except.error _ => Except.error AttError.indexRequired
      | Except.ok docs =>
        let acc := docs.foldl accumRecord (0, 0, 0)
        Except.ok ⟨employeeId, some s, some e, acc.1, acc.2.1, acc.2.2⟩
    | none =>
      let acc := (attendanceOf st employeeId).foldl accumRecord (0, 0, 0)
      Except.ok ⟨employeeId, none, none, acc.1, acc.2.1, acc.2.2⟩

/-- The per-employee body of `getAllPresenceReports`: with a window, the
composite query is attempted and, when it throws the index error, the
handler re-issues the plain by-employee query and aggregates **that whole
snapshot** (the source applies no in-process `entryTime` filter to the
fallback results); without a window the plain query is used. -/
def reportForEmployee (st : Store) (emp : Employee)
    (window : Option (ℤ × ℤ)) : Report :=
  let records :=
    match window with
    | some (s, e) =>
      match queryAttendanceRange st emp.id s e with
      | Except.ok docs => docs
      | Except.error _ => attendanceOf st emp.id
    | none => attendanceOf st emp.id
  let acc := records.foldl accumRecord (0, 0, 0)
  ⟨emp.id, window.map Prod.fst, window.map Prod.snd,
    acc.1, acc.2.1, acc.2.2⟩

/-- `getAllPresenceReports` (`attendanceReportsController.js`): one report
per employee; a per-employee index fallback never aborts the batch.  (In
the source the no-parameter case derives a per-employee hire-date window;
as for `getPresenceReport`, that resolution is outside the claims and the
resolved window is passed in.) -/
def getAllPresenceReports (st : Store) (window : Option (ℤ × ℤ)) :
    List Report :=
  st.employees.map (fun emp => reportForEmployee st emp window)

/-! ## Concrete fixtures used by counterexamples and witnesses -/

/-- An employee with no stored face descriptor. -/
def empOne : Employee := ⟨"e1", "e1@hr.test", "employee", none⟩

/-- An open attendance record (no `exitTime`) for `empOne`. -/
def openRec : AttendanceRecord :=
  ⟨0, "e1", 0, none, allowedLocation, none, Method.manual⟩

/-- A store in which `empOne` already has an open session; the composite
index exists. -/
def storeWithOpen : Store := ⟨[empOne], [openRec], 1, true⟩

/-- The same store without the composite `(employeeId, entryTime)` index. -/
def storeNoIndex : Store := ⟨[empOne], [openRec], 1, false⟩

/-- A record whose `entryTime` (2 ms) lies outside the window `[0, 1]`. -/
def strayRec : AttendanceRecord :=
  ⟨0, "e1", 2, none, allowedLocation, none, Method.manual⟩

/-- A store holding only `strayRec`, with the composite index missing. -/
def storeStray : Store := ⟨[empOne], [strayRec], 1, false⟩

/-- A closed attendance record: entry at 0, exit 8 hours later. -/
def closedRec : AttendanceRecord :=
  ⟨1, "e1", 0, some 28800000, allowedLocation, some allowedLocation,
    Method.manual⟩

/-- The all-zero stored face descriptor (128 entries). -/
def zeroDescriptor : List ℚ := List.replicate 128 0

/-- A 128-entry template at Euclidean distance 2 from `zeroDescriptor`. -/
def farTemplate : List ℚ := 2 :: List.replicate 127 0

/-- A 128-entry template at Euclidean distance exactly 0.6 from
`zeroDescriptor`. -/
def borderTemplate : List ℚ := 3 / 5 :: List.replicate 127 0

/-- An employee enrolled with `zeroDescriptor`. -/
def empFace : Employee := ⟨"e2", "e2@hr.test", "employee", some zeroDescriptor⟩

/-- A store holding only the enrolled employee `empFace`. -/
def storeFace : Store := ⟨[empFace], [], 0, true⟩

/-- A store with no employees and no records. -/
def emptyStore : Store := ⟨[], [], 0, true⟩

/-! ## Helper lemmas -/

theorem foldl_zip_self (f : ℚ × ℚ → ℚ) (hf : ∀ x : ℚ, f (x, x) = 0)
    (v : List ℚ) (acc : ℚ) :
    (List.zip v v).foldl (fun sum p => sum + f p) acc = acc := by
  induction v generalizing acc with
  | nil => rfl
  | cons x xs ih =>
    have hz : (x :: xs).zip (x :: xs) = (x, x) :: xs.zip xs := rfl
    rw [hz, List.foldl_cons]
    show (xs.zip xs).foldl _ (acc + f (x, x)) = acc
    rw [hf x, add_zero, ih]

/-- The summed squared differences of a vector with itself vanish. -/
theorem calculateDistanceSq_self (v : List ℚ) :
    calculateDistanceSq v v = some 0 := by
  unfold calculateDistanceSq
  rw [if_pos rfl]
  have h := foldl_zip_self (fun p => (p.1 - p.2) ^ 2) (by intro x; ring) v 0
  simp only at h ⊢
  rw [h]

/-- Squared distance between `x :: 0…0` and `0 :: 0…0` is `x ^ 2`. -/
theorem calculateDistanceSq_single (x : ℚ) (n : ℕ) :
    calculateDistanceSq (x :: List.replicate n 0) (0 :: List.replicate n 0)
      = some (x ^ 2) := by
  unfold calculateDistanceSq
  rw [if_pos (by simp)]
  have hz : (x :: List.replicate n 0).zip (0 :: List.replicate n 0)
      = (x, (0 : ℚ)) :: (List.replicate n 0).zip (List.replicate n 0) := rfl
  rw [hz, List.foldl_cons]
  have h := foldl_zip_self (fun p => (p.1 - p.2) ^ 2) (by intro y; ring)
    (List.replicate n 0) (0 + (x - 0) ^ 2)
  simp only at h ⊢
  rw [h]
  norm_num

/-- `zeroDescriptor` written with its head exposed. -/
theorem zeroDescriptor_cons : zeroDescriptor = 0 :: List.replicate 127 0 := by
  rw [zeroDescriptor, show (128 : ℕ) = 127 + 1 from rfl]
  rfl

/-- The geofence accepts the configured centre itself. -/
theorem outsideAllowedArea_center :
    outsideAllowedArea allowedLocation = false := by
  simp [outsideAllowedArea]
  positivity

theorem validId_e1 : isValidFirebaseId "e1" = true := by decide

theorem distSq_farTemplate :
    calculateDistanceSq farTemplate zeroDescriptor = some 4 := by
  rw [farTemplate, zeroDescriptor_cons]
  have h := calculateDistanceSq_single 2 127
  rw [h]
  norm_num

theorem distSq_borderTemplate :
    calculateDistanceSq borderTemplate zeroDescriptor = some (9 / 25) := by
  rw [borderTemplate, zeroDescriptor_cons]
  have h := calculateDistanceSq_single (3 / 5) 127
  rw [h]
  norm_num

/-! ## C1 — duplicate-open-session enforcement across the three entry paths -/

/-- C1, counterexample: in a store where employee e1 already has an open
attendance record, a QR scan for e1 is not rejected with the
duplicate-open-session error — it succeeds and leaves two open records for
e1 in the store, violating the claimed invariant. -/
theorem C1_counterexample :
    hasOpenAttendance storeWithOpen "e1" = true
  ∧ (scanQrCode storeWithOpen "e1" "employee" (some ⟨"e1", 0, 43200000⟩) 0
        allowedLocation 0).1 ≠ Except.error AttError.duplicateOpenSession
  ∧ ((scanQrCode storeWithOpen "e1" "employee" (some ⟨"e1", 0, 43200000⟩) 0
        allowedLocation 0).2.attendance.filter
          (fun r => r.employeeId == "e1" && r.exitTime.isNone)).length
      = 2 := by
  refine ⟨by decide, ?_, ?_⟩
  all_goals
    simp [scanQrCode, findEmployee, storeWithOpen, empOne, openRec,
      outsideAllowedArea_center, validId_e1]

/-- C1, amended: only the manual recordAttendance operation rejects a
duplicate open session (given that its open-session query itself succeeds);
scanQrCode and facialAttendance never perform the check, so they can never
fail with the duplicate-open-session error and can create a second open
record for an employee. -/
theorem C1_amended :
    (∀ st uid urole req, (uid = req.employeeId ∨ urole = "admin") →
        (findEmployee st req.employeeId).isSome →
        hasOpenAttendance st req.employeeId = true →
        recordAttendance st uid urole req true
          = (Except.error AttError.duplicateOpenSession, st))
  ∧ (∀ st uid urole qd et loc now,
        (scanQrCode st uid urole qd et loc now).1
          ≠ Except.error AttError.duplicateOpenSession)
  ∧ (∀ st uid urole eid tmpl et loc,
        (facialAttendance st uid urole eid tmpl et loc).1
          ≠ Except.error AttError.duplicateOpenSession) := by
  refine ⟨?_, ?_, ?_⟩
  · intro st uid urole req hauth hfind hopen
    unfold recordAttendance
    obtain ⟨emp, hemp⟩ := Option.isSome_iff_exists.mp hfind
    rw [hemp]
    have hna : ¬ (uid ≠ req.employeeId ∧ urole ≠ "admin") := by tauto
    rw [if_neg hna, hopen]
    simp
  · intro st uid urole qd et loc now
    unfold scanQrCode
    rcases qd with _ | p
    · simp
    · dsimp only
      repeat' split
      all_goals simp
  · intro st uid urole eid tmpl et loc
    unfold facialAttendance
    dsimp only
    repeat' split
    all_goals simp

/-- C1, witness for the amended theorem at a concrete store. -/
theorem C1_amended_witness :
    recordAttendance storeWithOpen "e1" "employee"
        ⟨"e1", 5, allowedLocation, Method.manual⟩ true
      = (Except.error AttError.duplicateOpenSession, storeWithOpen) :=
  C1_amended.1 storeWithOpen "e1" "employee"
    ⟨"e1", 5, allowedLocation, Method.manual⟩ (Or.inl rfl) (by decide)
    (by decide)

/-! ## C4 — the facial-confidence figure -/

/-- C4, counterexample: the reported confidence is `100 - d * 100` with no
clamping at zero.  At distance 2 — attainable by 128-float vectors, as the
first conjunct shows — the figure is `-100`, which is negative and differs
from the claimed `max 0 (100 * (1 - d)) = 0`. -/
theorem C4_counterexample :
    (facialAttendance storeFace "e2" "employee" "e2" farTemplate 0
        allowedLocation).1
      = Except.error (AttError.notRecognized (some 4))
  ∧ confidence 2 = -100
  ∧ confidence 2 < 0
  ∧ confidence 2 ≠ max 0 (100 * (1 - 2)) := by
  refine ⟨?_, by norm_num [confidence], by norm_num [confidence],
    by norm_num [confidence]⟩
  unfold facialAttendance
  rw [if_neg (by simp [farTemplate]),
    show findEmployee storeFace "e2" = some empFace from rfl]
  dsimp only
  rw [show empFace.faceDescriptor = some zeroDescriptor from rfl]
  dsimp only
  rw [distSq_farTemplate,
    show faceRejected (some 4) = true by norm_num [faceRejected]]
  rfl

/-- C4, amended: the confidence reported with a facial rejection equals
`100 * (1 - d)` for distance `d`, with no `max 0` clamp: it is `35` at
`d = 0.65`, and it is negative exactly when `d > 1`. -/
theorem C4_amended :
    (∀ d : ℚ, confidence d = 100 * (1 - d))
  ∧ confidence (13 / 20) = 35
  ∧ (∀ d : ℚ, confidence d < 0 ↔ 1 < d) := by
  refine ⟨fun d => by unfold confidence; ring, by norm_num [confidence],
    fun d => ?_⟩
  unfold confidence
  constructor <;> intro h <;> linarith

/-! ## C5 — the facial recognition threshold -/

/-- C5: a template identical to the stored descriptor always passes the
recognition test (distance 0), and whenever the squared distance is at
least `0.36` (that is, the Euclidean distance is at least `0.6`) the
facial attempt fails with the not-recognized error and the store is left
unchanged — no attendance record is created. -/
theorem C5_facial_threshold :
    (∀ v : List ℚ, faceRejected (calculateDistanceSq v v) = false)
  ∧ (∀ st uid urole eid tmpl et loc emp desc s,
      findEmployee st eid = some emp →
      emp.faceDescriptor = some desc →
      tmpl.length = 128 →
      calculateDistanceSq tmpl desc = some s →
      9 / 25 ≤ s →
      facialAttendance st uid urole eid tmpl et loc
        = (Except.error (AttError.notRecognized (some s)), st)) := by
  constructor
  · intro v
    rw [calculateDistanceSq_self]
    norm_num [faceRejected]
  · intro st uid urole eid tmpl et loc emp desc s hemp hdesc hlen hdist hs
    unfold facialAttendance
    rw [if_neg (by rw [hlen]; exact fun h => h rfl), hemp]
    dsimp only
    rw [hdesc]
    dsimp only
    rw [hdist]
    have hrej : faceRejected (some s) = true := decide_eq_true hs
    rw [hrej]
    simp

/-- C5, witness: at the exact threshold distance 0.6 the facial attempt is
rejected and the store is unchanged. -/
theorem C5_facial_threshold_witness :
    facialAttendance storeFace "e2" "employee" "e2" borderTemplate 0
        allowedLocation
      = (Except.error (AttError.notRecognized (some (9 / 25))), storeFace) :=
  C5_facial_threshold.2 storeFace "e2" "employee" "e2" borderTemplate 0
    allowedLocation empFace zeroDescriptor (9 / 25) (by decide) rfl
    (by simp [borderTemplate]) distSq_borderTemplate (by norm_num)

/-! ## C2 — index failure handling in getPresenceReport -/

/-- C2, counterexample: with the composite index missing, getPresenceReport
for an existing employee over a concrete window surfaces the hard
index-required error instead of producing a report via a fallback query. -/
theorem C2_counterexample :
    findEmployee storeNoIndex "e1" = some empOne
  ∧ getPresenceReport storeNoIndex "e1" (some (0, 604800000))
      = Except.error AttError.indexRequired := by
  constructor
  · decide
  · simp [getPresenceReport, queryAttendanceRange, findEmployee,
      storeNoIndex, empOne]

/-- C2, amended: when the composite employee-plus-range query cannot be
executed, getPresenceReport does not fall back — it returns the hard
"Database index required" error to the caller.  Only the batch
getAllPresenceReports absorbs the failure: it always yields one report per
employee, whatever the index state. -/
theorem C2_amended :
    (∀ st eid s e emp, findEmployee st eid = some emp →
        st.attendanceCompositeIndex = false →
        getPresenceReport st eid (some (s, e))
          = Except.error AttError.indexRequired)
  ∧ (∀ st window,
        (getAllPresenceReports st window).length = st.employees.length) := by
  constructor
  · intro st eid s e emp hemp hidx
    simp [getPresenceReport, queryAttendanceRange, hemp, hidx]
  · intro st window
    unfold getAllPresenceReports
    rw [List.length_map]

/-- C2, witness for the amended theorem at a concrete store. -/
theorem C2_amended_witness :
    getPresenceReport storeNoIndex "e1" (some (0, 604800000))
        = Except.error AttError.indexRequired
  ∧ (getAllPresenceReports storeNoIndex (some (0, 604800000))).length
      = storeNoIndex.employees.length :=
  ⟨C2_amended.1 storeNoIndex "e1" 0 604800000 empOne (by decide) rfl,
   C2_amended.2 storeNoIndex (some (0, 604800000))⟩

/-! ## C3 — the fallback path of getAllPresenceReports -/

/-- C3, counterexample: under the index fallback, a record whose entryTime
(2) lies outside the requested window [0, 1] is still aggregated — the
report counts one day, where the claimed in-process window filtering would
count zero. -/
theorem C3_counterexample :
    ¬ (0 ≤ strayRec.entryTime ∧ strayRec.entryTime ≤ 1)
  ∧ (reportForEmployee storeStray empOne (some (0, 1))).totalDays = 1 := by
  constructor
  · decide
  · simp [reportForEmployee, queryAttendanceRange, storeStray, attendanceOf,
      strayRec, accumRecord, hourOf, empOne]

/-- C3, amended: when the composite query fails with the index error, the
re-issued by-employee query result is aggregated whole — no in-process
entryTime filtering is applied, so the report totals equal those of an
unwindowed report (only the displayed start and end dates reflect the
request). -/
theorem C3_amended (st : Store) (emp : Employee) (s e : ℤ)
    (hidx : st.attendanceCompositeIndex = false) :
    reportForEmployee st emp (some (s, e))
      = { reportForEmployee st emp none with
            startDate := some s, endDate := some e } := by
  simp [reportForEmployee, queryAttendanceRange, hidx]

/-- C3, witness for the amended theorem at a concrete store. -/
theorem C3_amended_witness :
    reportForEmployee storeStray empOne (some (0, 1))
      = { reportForEmployee storeStray empOne none with
            startDate := some 0, endDate := some 1 } :=
  C3_amended storeStray empOne 0 1 rfl

/-! ## C6 — the 5-minute QR freshness window -/

/-- C6: a scan whose payload was issued at most 5 minutes before `now` is
never rejected as expired, while a scan reaching the freshness check with
a payload older than 5 minutes fails with the expired-credential error and
leaves the store unchanged — no record is created. -/
theorem C6_qr_freshness :
    (∀ st uid urole (p : QrPayload) et loc now,
        now - p.timestamp ≤ 5 * 60 * 1000 →
        (scanQrCode st uid urole (some p) et loc now).1
          ≠ Except.error AttError.expiredCredential)
  ∧ (∀ st uid urole (p : QrPayload) et loc now,
        isValidFirebaseId p.employeeId = true →
        (uid = p.employeeId ∨ urole = "admin") →
        (findEmployee st p.employeeId).isSome →
        5 * 60 * 1000 < now - p.timestamp →
        scanQrCode st uid urole (some p) et loc now
          = (Except.error AttError.expiredCredential, st)) := by
  constructor
  · intro st uid urole p et loc now hfresh
    unfold scanQrCode
    dsimp only
    repeat' split
    all_goals first | (exfalso; omega) | simp
  · intro st uid urole p et loc now hvalid hauth hfind hstale
    obtain ⟨emp, hemp⟩ := Option.isSome_iff_exists.mp hfind
    have hna : ¬ (uid ≠ p.employeeId ∧ urole ≠ "admin") := by tauto
    unfold scanQrCode
    dsimp only
    rw [if_neg (show ¬ ¬ isValidFirebaseId p.employeeId = true by
          simp [hvalid]),
      if_neg hna, hemp]
    dsimp only
    rw [if_pos hstale]

/-- C6, witness: a payload issued exactly at scan time is accepted as
fresh, and one issued 6 minutes earlier is rejected as expired. -/
theorem C6_qr_freshness_witness :
    (scanQrCode storeWithOpen "e1" "employee"
        (some ⟨"e1", 720000, 43920000⟩) 720000 allowedLocation 720000).1
      ≠ Except.error AttError.expiredCredential
  ∧ scanQrCode storeWithOpen "e1" "employee"
        (some ⟨"e1", 360000, 43560000⟩) 720000 allowedLocation 720000
      = (Except.error AttError.expiredCredential, storeWithOpen) :=
  ⟨C6_qr_freshness.1 storeWithOpen "e1" "employee" ⟨"e1", 720000, 43920000⟩
      720000 allowedLocation 720000 (by norm_num),
   C6_qr_freshness.2 storeWithOpen "e1" "employee" ⟨"e1", 360000, 43560000⟩
      720000 allowedLocation 720000 validId_e1 (Or.inl rfl) (by decide)
      (by norm_num)⟩

/-! ## C7 — exit chronology -/

/-- C7: when an open record is located for the employee, recordExit fails
with the invalid-chronology error (store unchanged) whenever the supplied
exit instant is at most the entry instant of that record, and otherwise
updates exactly that record with the exit time and the exit location and
returns the updated record. -/
theorem C7_exit_chronology :
    ∀ st (req : ExitRequest) now existing,
      (findEmployee st req.employeeId).isSome →
      openRecordFor st req.employeeId now = some existing →
      ((req.exitTime ≤ existing.entryTime →
          recordExit st req now
            = (Except.error AttError.invalidChronology, st))
       ∧ (existing.entryTime < req.exitTime →
          recordExit st req now
            = (Except.ok { existing with
                           exitTime := some req.exitTime,
                           exitLocation := some req.location },
               { st with attendance := st.attendance.map (fun r =>
                   if r.id = existing.id
                   then { existing with
                          exitTime := some req.exitTime,
                          exitLocation := some req.location }
                   else r) }))) := by
  intro st req now existing hfind hopen
  obtain ⟨emp, hemp⟩ := Option.isSome_iff_exists.mp hfind
  unfold recordExit
  rw [hemp]
  dsimp only
  rw [hopen]
  dsimp only
  constructor
  · intro h
    rw [if_pos h]
  · intro h
    rw [if_neg (not_le.mpr h)]

/-- C7, witness: on the concrete open record, an exit before the entry is
rejected, and an exit 8 hours after the entry updates the record. -/
theorem C7_exit_chronology_witness :
    recordExit storeWithOpen ⟨"e1", -5, allowedLocation⟩ 0
      = (Except.error AttError.invalidChronology, storeWithOpen)
  ∧ recordExit storeWithOpen ⟨"e1", 28800000, allowedLocation⟩ 0
      = (Except.ok { openRec with
                     exitTime := some 28800000,
                     exitLocation := some allowedLocation },
         { storeWithOpen with
           attendance := storeWithOpen.attendance.map
             (fun r => if r.id = openRec.id
               then { openRec with
                      exitTime := some 28800000,
                      exitLocation := some allowedLocation }
               else r) }) :=
  ⟨(C7_exit_chronology storeWithOpen ⟨"e1", -5, allowedLocation⟩ 0 openRec
      (by decide) rfl).1 (by norm_num [openRec]),
   (C7_exit_chronology storeWithOpen ⟨"e1", 28800000, allowedLocation⟩ 0
      openRec (by decide) rfl).2 (by norm_num [openRec])⟩

/-! ## C8 — per-record report contributions -/

/-- C8: in the aggregation loop of the report builders, every record adds
exactly 1 to totalDays; a record with no exit time adds exactly 0 to
totalHours; and a record with an exit time adds exactly
`(exitTime - entryTime)` milliseconds divided by 3,600,000 — i.e. the
elapsed hours — to totalHours.  The last conjunct ties the loop to
getPresenceReport: the unwindowed report is the fold of this loop body
over the employee records. -/
theorem C8_report_contribution :
    (∀ (acc : ℕ × ℚ × ℕ) (r : AttendanceRecord),
      (accumRecord acc r).1 = acc.1 + 1
      ∧ (r.exitTime = none → (accumRecord acc r).2.1 = acc.2.1)
      ∧ (∀ ex, r.exitTime = some ex →
          (accumRecord acc r).2.1
            = acc.2.1 + ((ex - r.entryTime : ℤ) : ℚ) / (1000 * 60 * 60)))
  ∧ (∀ st eid emp, findEmployee st eid = some emp →
      getPresenceReport st eid none
        = Except.ok ⟨eid, none, none,
            ((attendanceOf st eid).foldl accumRecord (0, 0, 0)).1,
            ((attendanceOf st eid).foldl accumRecord (0, 0, 0)).2.1,
            ((attendanceOf st eid).foldl accumRecord (0, 0, 0)).2.2⟩) := by
  constructor
  · intro acc r
    refine ⟨?_, ?_, ?_⟩
    · cases hex : r.exitTime <;> simp [accumRecord, hex]
    · intro hnone
      simp [accumRecord, hnone]
    · intro ex hsome
      simp [accumRecord, hsome]
  · intro st eid emp hemp
    simp [getPresenceReport, hemp]

/-- C8, witness: the open record contributes zero hours, the closed record
contributes its elapsed time, and the unwindowed concrete report is the
fold of the loop body. -/
theorem C8_report_contribution_witness :
    (accumRecord (0, 0, 0) openRec).2.1 = ((0 : ℕ), (0 : ℚ), (0 : ℕ)).2.1
  ∧ (accumRecord (0, 0, 0) closedRec).2.1
      = ((0 : ℕ), (0 : ℚ), (0 : ℕ)).2.1
        + ((28800000 - closedRec.entryTime : ℤ) : ℚ) / (1000 * 60 * 60)
  ∧ getPresenceReport storeWithOpen "e1" none
      = Except.ok ⟨"e1", none, none,
          ((attendanceOf storeWithOpen "e1").foldl accumRecord (0, 0, 0)).1,
          ((attendanceOf storeWithOpen "e1").foldl accumRecord (0, 0, 0)).2.1,
          ((attendanceOf storeWithOpen "e1").foldl accumRecord
            (0, 0, 0)).2.2⟩ :=
  ⟨(C8_report_contribution.1 (0, 0, 0) openRec).2.1 rfl,
   (C8_report_contribution.1 (0, 0, 0) closedRec).2.2 28800000 rfl,
   C8_report_contribution.2 storeWithOpen "e1" empOne (by decide)⟩

/-! ## C9 — failed exits never mutate the store -/

/-- C9: whenever recordExit returns an error — unknown employee, no open
record, or invalid chronology — the store after the call equals the store
before it: the update is issued only after every check has passed. -/
theorem C9_exit_failure_no_mutation :
    ∀ st (req : ExitRequest) now err,
      (recordExit st req now).1 = Except.error err →
      (recordExit st req now).2 = st := by
  intro st req now err
  unfold recordExit
  cases findEmployee st req.employeeId with
  | none => intro _; rfl
  | some emp =>
    dsimp only
    cases openRecordFor st req.employeeId now with
    | none => intro _; rfl
    | some existing =>
      dsimp only
      split
      · intro _
        rfl
      · intro h
        exact absurd h (by simp)

/-- C9, witness: an exit for an unknown employee fails and leaves the
store exactly as it was. -/
theorem C9_exit_failure_no_mutation_witness :
    (recordExit emptyStore ⟨"ghost", 1, allowedLocation⟩ 0).2 = emptyStore :=
  C9_exit_failure_no_mutation emptyStore ⟨"ghost", 1, allowedLocation⟩ 0
    AttError.notFound rfl

/-! ## C10 — the expiresAt field of a QR payload is never consulted -/

/-- C10: two QR payloads agreeing on employeeId and timestamp but
differing in expiresAt produce identical scan outcomes — scanQrCode never
reads expiresAt — and concretely a payload whose expiresAt lies in the
past is still accepted when its timestamp is within 5 minutes of now. -/
theorem C10_qr_expiresAt_ignored :
    (∀ st uid urole eid ts exp1 exp2 et loc now,
        scanQrCode st uid urole (some ⟨eid, ts, exp1⟩) et loc now
          = scanQrCode st uid urole (some ⟨eid, ts, exp2⟩) et loc now)
  ∧ (scanQrCode storeWithOpen "e1" "employee"
        (some ⟨"e1", 1000000000000, 0⟩) 5 allowedLocation 1000000000000).1
      = Except.ok ⟨1, "e1", 5, none, allowedLocation, none, Method.qr⟩ := by
  constructor
  · intro st uid urole eid ts exp1 exp2 et loc now
    rfl
  · simp [scanQrCode, findEmployee, storeWithOpen, empOne, validId_e1,
      outsideAllowedArea_center]

end HRMS
